import Mathlib

/-!
Verification development for the RAGify repository (Next.js RAG application).

The definitions below are a shallow embedding of the application-layer code:

* `src/lib/redis.ts`          — session quota counter and source list helpers;
* `src/app/api/chat/route.ts` — the POST /chat handler (quota gate, Qdrant
  similarity search, application-layer tenant filter, web-search confirmation
  flow, and the system-prompt builder);
* `src/app/api/indexing/route.ts` — the POST /ingest pipeline
  (`handleFileUpload`, web/text branches, chunking, embedding/upsert, Redis
  bookkeeping) and the DELETE /ingest handler;
* `src/app/api/session/route.ts` — the DELETE /session handler.

External collaborators (Qdrant, Redis, the embedding model, the PDF/web
loaders, the text splitter, Tavily) are modelled as oracles: the values their
calls return are inputs of the embedded functions, and the store commands the
code issues are made explicit.  Machine integers are modelled as `Int`/`Nat`
(the quota counter is a Redis integer, unbounded in the range the code can
reach).
-/

namespace RagAi

/-! ## JavaScript value helpers

A JS expression `a || b` evaluates to `b` exactly when `a` is falsy; for the
string-valued fields used by this code the falsy values are `undefined`/`null`
(modelled as `none`) and the empty string. -/

/-- JS `a || b` for string-or-undefined values. -/
def jsOrS (a b : Option String) : Option String :=
  match a with
  | none => b
  | some s => if s = "" then b else some s

/-- JS `a || b` where `b` is a string literal (hence the result is a string). -/
def jsOrD (a : Option String) (b : String) : String :=
  match a with
  | none => b
  | some s => if s = "" then b else s

/-- JS truthiness test for a string-or-undefined value (`!x` is `true` exactly
when `jsFalsy x`). -/
def jsFalsy (a : Option String) : Bool :=
  match a with
  | none => true
  | some s => s = ""

/-! String primitives used by the routes, defined over the character list so
that they evaluate by kernel reduction (the byte-position implementations in
core use well-founded recursion).  Semantics match the JS methods on the
inputs this code handles. -/

/-- JS `s.toLowerCase()`. -/
def jsToLower (s : String) : String :=
  ⟨s.data.map Char.toLower⟩

/-- JS `s.trim()`: strip leading and trailing whitespace. -/
def jsTrim (s : String) : String :=
  ⟨((s.data.dropWhile Char.isWhitespace).reverse.dropWhile Char.isWhitespace).reverse⟩

/-- JS `s.startsWith(p)`. -/
def jsStartsWith (s p : String) : Bool :=
  p.data.isPrefixOf s.data

/-- Whether `sub` occurs as a contiguous run inside `s`. -/
def containsSubChars : List Char → List Char → Bool
  | s@(_ :: t), sub => sub.isPrefixOf s || containsSubChars t sub
  | [], sub => sub.isEmpty

/-- JS `s.includes(sub)`. -/
def jsIncludes (s sub : String) : Bool :=
  containsSubChars s.data sub.data

/-- Number of maximal runs of characters satisfying `p` (the `inRun` flag says
whether the previous character was inside a run). -/
def countRuns (p : Char → Bool) : List Char → Bool → Nat
  | [], _ => 0
  | c :: t, inRun =>
      if p c then (if inRun then countRuns p t true else 1 + countRuns p t true)
      else countRuns p t false

/-- JS `list.join(sep)` / `String.intercalate`. -/
def joinSep (sep : String) : List String → String
  | [] => ""
  | [x] => x
  | x :: xs => x ++ sep ++ joinSep sep xs

/-! ## Data model

`DocMetadata` is the metadata object the ingestion route attaches to every
LangChain `Document` (and which the Qdrant store persists under
`payload.metadata`).  Fields that a given branch does not set stay `none`
(JS `undefined`). -/

structure DocMetadata where
  source : Option String := none
  type : Option String := none
  page : Option Nat := none
  totalPages : Option Nat := none
  size : Option String := none
  title : Option String := none
  /-- JS field name: `section` (a reserved word in Lean). -/
  sectionLabel : Option String := none
  tenant_id : Option String := none
deriving Repr, DecidableEq

structure Document where
  pageContent : String
  metadata : DocMetadata
deriving Repr, DecidableEq

/-- Payload of a Qdrant point as the chat/delete routes read it:
`payload.metadata` (LangChain nesting), plus the flat fallback fields the
code probes with `payload?.tenant_id`, `payload?.source`, `payload?.content`
and `payload?.text`. -/
structure PointPayload where
  metadata : Option DocMetadata := none
  tenant_id : Option String := none
  source : Option String := none
  content : Option String := none
  text : Option String := none
deriving Repr, DecidableEq

/-- A scored point returned by `qdrantClient.search` / `scroll` (vector and
score omitted: the code never reads them; the list order carries the
descending-relevance ranking). -/
structure ScoredPoint where
  id : Nat
  payload : Option PointPayload := none
deriving Repr, DecidableEq

/-- `FileMetadata` from `src/lib/redis.ts`. -/
structure FileMetadata where
  id : String
  name : String
  type : String
  size : String
  sourceType : String
  uploadedAt : Nat
deriving Repr, DecidableEq

/-! ## Redis embedding (`src/lib/redis.ts`)

The store is a key-value map from key strings to integer values (Redis stores
decimal strings; `getSessionTokens` parses them back with `parseInt`, so the
roundtrip is the identity on the integers this code writes), plus a TTL map.
Each primitive below is one atomic Redis command. -/

def SESSION_TTL : Nat := 86400

def DEFAULT_TOKENS : Int := 10

def sessionTokensKey (sessionId : String) : String :=
  "session:" ++ sessionId ++ ":tokens"

structure Redis where
  kv : List (String × Int)
  ttl : List (String × Nat)
deriving Repr, DecidableEq

def kvSet (l : List (String × Int)) (k : String) (v : Int) : List (String × Int) :=
  (k, v) :: l.filter (fun p => p.1 ≠ k)

def ttlSet (l : List (String × Nat)) (k : String) (v : Nat) : List (String × Nat) :=
  (k, v) :: l.filter (fun p => p.1 ≠ k)

/-- Atomic `GET key`. -/
def Redis.get (s : Redis) (k : String) : Option Int :=
  s.kv.lookup k

/-- Atomic `SET key v EX ex`. -/
def Redis.set (s : Redis) (k : String) (v : Int) (ex : Nat) : Redis :=
  { kv := kvSet s.kv k v, ttl := ttlSet s.ttl k ex }

/-- Atomic `DECR key`: a missing key counts as 0; returns the post-decrement
value.  `DECR` does not touch the TTL. -/
def Redis.decr (s : Redis) (k : String) : Int × Redis :=
  let v := (s.get k).getD 0 - 1
  (v, { s with kv := kvSet s.kv k v })

/-- Atomic `EXPIRE key ex`: a no-op when the key is absent. -/
def Redis.expire (s : Redis) (k : String) (ex : Nat) : Redis :=
  if (s.get k).isSome then { s with ttl := ttlSet s.ttl k ex } else s

/-- `getSessionTokens` from `src/lib/redis.ts`: `GET`, and on a missing key
`SET key DEFAULT_TOKENS EX SESSION_TTL` followed by returning the default. -/
def getSessionTokens (s : Redis) (sessionId : String) : Int × Redis :=
  let key := sessionTokensKey sessionId
  match s.get key with
  | none => (DEFAULT_TOKENS, s.set key DEFAULT_TOKENS SESSION_TTL)
  | some tokens => (tokens, s)

/-- `decrementSessionTokens` from `src/lib/redis.ts`: `DECR key` followed by a
separate `EXPIRE key SESSION_TTL`; returns the post-decrement value. -/
def decrementSessionTokens (s : Redis) (sessionId : String) : Int × Redis :=
  let key := sessionTokensKey sessionId
  let (tokens, s1) := s.decr key
  (tokens, s1.expire key SESSION_TTL)

/-! ## Interleaving model of the chat quota gate

The quota phase of POST /chat executes, per request:
`getSessionTokens` (a `GET`, plus a `SET..EX` when the key was absent), the
local test `tokens <= 0`, and on the sufficient branch `decrementSessionTokens`
(a `DECR`, then an `EXPIRE`).  Each program counter transition below performs
exactly one atomic store command, so interleavings of two concurrent requests
are schedules over these steps. -/

namespace QuotaRace

/-- Program counter of one in-flight quota phase.  `done none` is the 429
rejection; `done (some v)` is acceptance with post-decrement value `v`. -/
inductive PC
  | start
  | initSet
  | willDecr
  | willExpire (v : Int)
  | done (accepted : Option Int)
deriving Repr, DecidableEq

/-- One atomic store command of the quota phase for session key `key`. -/
def step (key : String) (s : Redis) (pc : PC) : Redis × PC :=
  match pc with
  | .start =>
      match s.get key with
      | none => (s, .initSet)
      | some t => (s, if t ≤ 0 then .done none else .willDecr)
  | .initSet => (s.set key DEFAULT_TOKENS SESSION_TTL, .willDecr)
  | .willDecr =>
      let (v, s1) := s.decr key
      (s1, .willExpire v)
  | .willExpire v => (s.expire key SESSION_TTL, .done (some v))
  | .done o => (s, .done o)

/-- Run two concurrent quota phases under a schedule: `true` steps the first
request, `false` the second. -/
def run2 (key : String) : List Bool → Redis → PC → PC → Redis × PC × PC
  | [], s, a, b => (s, a, b)
  | true :: rest, s, a, b =>
      let (s1, a1) := step key s a
      run2 key rest s1 a1 b
  | false :: rest, s, a, b =>
      let (s1, b1) := step key s b
      run2 key rest s1 a b1

end QuotaRace

/-! ## POST /chat (`src/app/api/chat/route.ts`)

The route reads `x-session-id` (falling back to `"default-session"`),
validates the body, runs the quota gate, embeds the question, issues a Qdrant
search with `limit: 4`, filters the returned points in JS by tenant id,
optionally performs a Tavily web search when the question confirms or requests
one, builds the system prompt, and streams the model answer with an
`x-remaining-tokens` response header. -/

/-- Chat message of the `conversationHistory` body field. -/
structure ChatMsg where
  role : String
  content : String
deriving Repr, DecidableEq

/-- Body and headers of a POST /chat request.  The route destructures only
`question`, `sources` and `conversationHistory` from the JSON body; a
`targetSource` field sent by the client (see `page.tsx`) is carried here but
never read by the handler. -/
structure ChatRequest where
  headerSessionId : Option String := none
  question : String
  sources : Option (List String) := none
  targetSource : Option String := none
  conversationHistory : List ChatMsg := []
deriving Repr, DecidableEq

structure ChatEnv where
  qdrantUrl : Option String := none
  qdrantKey : Option String := none
  googleKey : Option String := none
  tavilyKey : Option String := none
deriving Repr, DecidableEq

/-- One Tavily search result. -/
structure WebResult where
  title : String
  content : String
  url : String
deriving Repr, DecidableEq

/-- Values returned by the external services during one chat request:
`searchRanking` is the collection's descending-relevance ranking for the
embedded question (the Qdrant search returns its first `limit` entries);
`tavilyResult` is the web-search outcome (`Except.error` models a thrown
request failure). -/
structure ChatOracle where
  searchRanking : List ScoredPoint
  tavilyResult : Except Unit (List WebResult)

/-- JSON error body `{ error, tokens? }`. -/
structure ErrorBody where
  error : String
  tokens : Option Int := none
deriving Repr, DecidableEq

inductive ChatResponse
  | json (status : Nat) (body : ErrorBody)
  | stream (xRemainingTokens : String) (system : String) (prompt : String)
deriving Repr, DecidableEq

/-- Session id of a chat request: `req.headers.get("x-session-id") || "default-session"`. -/
def chatSessionId (headerSessionId : Option String) : String :=
  jsOrD headerSessionId "default-session"

/-- JS `!sources || sources.length === 0`. -/
def sourcesMissing (s : Option (List String)) : Bool :=
  match s with
  | none => true
  | some l => l.isEmpty

/-- The `limit` the route passes to `qdrantClient.search("PDF_Indexing", ...)`. -/
def chatSearchLimit : Nat := 4

/-- The slice bound of `sessionResults` (`.slice(0, 4)`): the retrieval result
size k. -/
def chatResultK : Nat := 4

/-- Candidates the search returns: the first `chatSearchLimit` points of the
collection's descending-relevance ranking. -/
def chatCandidates (ranking : List ScoredPoint) : List ScoredPoint :=
  ranking.take chatSearchLimit

/-- `point.payload?.metadata?.tenant_id || point.payload?.tenant_id`. -/
def effectiveTenantId (p : ScoredPoint) : Option String :=
  jsOrS ((p.payload.bind PointPayload.metadata).bind DocMetadata.tenant_id)
    (p.payload.bind PointPayload.tenant_id)

/-- The JS post-search filter of the chat route: keep the points whose
effective tenant id equals the requesting session id, then `.slice(0, 4)`. -/
def chatSessionResults (searchResult : List ScoredPoint) (sessionId : String) :
    List ScoredPoint :=
  (searchResult.filter fun point => effectiveTenantId point == some sessionId).take chatResultK

/-- Conversion of a filtered point to LangChain `Document` shape:
`pageContent: point.payload?.content || point.payload?.text || ""`,
`metadata: point.payload?.metadata || {}`. -/
def chatRelevantChunks (pts : List ScoredPoint) : List Document :=
  pts.map fun point =>
    { pageContent :=
        jsOrD (jsOrS (point.payload.bind PointPayload.content)
          (point.payload.bind PointPayload.text)) ""
      metadata := (point.payload.bind PointPayload.metadata).getD {} }

/-- Display form of `doc.metadata?.page || "?"` (a page number 0 would be
falsy, like an absent one). -/
def pageLabel (p : Option Nat) : String :=
  match p with
  | none => "?"
  | some n => if n = 0 then "?" else toString n

/-- The grounding context block: one `Context #i (Page p):` entry per chunk,
joined by blank lines. -/
def mkContext (chunks : List Document) : String :=
  joinSep "\n\n" (chunks.enum.map fun (i, doc) =>
    "Context #" ++ toString (i + 1) ++ " (Page " ++ pageLabel doc.metadata.page ++ "):\n"
      ++ doc.pageContent)

/-- Short affirmative replies that confirm a previously offered web search. -/
def isShortConfirmation (question : String) : Bool :=
  let questionLower := jsTrim (jsToLower question)
  question.length < 30 &&
    (questionLower == "yes" || questionLower == "yeah" || questionLower == "ok" ||
     questionLower == "okay" || questionLower == "sure" || questionLower == "go ahead" ||
     questionLower == "please" || jsStartsWith questionLower "yes," ||
     jsStartsWith questionLower "yes ")

/-- Explicit web-search requests in the question text. -/
def hasSearchKeywords (question : String) : Bool :=
  let questionLower := jsTrim (jsToLower question)
  jsIncludes questionLower "search web" || jsIncludes questionLower "search the web" ||
    jsIncludes questionLower "look it up" || jsIncludes questionLower "find online" ||
    jsIncludes questionLower "google it"

def shouldPerformWebSearch (question : String) : Bool :=
  isShortConfirmation question || hasSearchKeywords question

/-- The query sent to Tavily: for a short confirmation, the last user message
of the conversation history; otherwise the question itself. -/
def searchQueryOf (question : String) (conversationHistory : List ChatMsg) : String :=
  if isShortConfirmation question ∧ conversationHistory ≠ [] then
    let userMessages := conversationHistory.filter fun msg => msg.role == "user"
    match userMessages.getLast? with
    | some m => m.content
    | none => question
  else question

/-- Tavily results formatted into the `Web Result #i` block. -/
def mkWebSearchResults (rs : List WebResult) : String :=
  joinSep "\n\n" (rs.enum.map fun (i, r) =>
    "Web Result #" ++ toString (i + 1) ++ ":\nTitle: " ++ r.title ++ "\nContent: "
      ++ r.content ++ "\nURL: " ++ r.url)

/-- The web-search step: when the question triggers a search, the Tavily call
is made with `searchQuery`; a successful call yields the formatted results and
sets `searchPerformed`, a thrown failure yields the fallback message with
`searchPerformed` still false. -/
def chatWebSearch (_searchQuery : String) (shouldSearch : Bool)
    (tavilyResult : Except Unit (List WebResult)) : String × Bool :=
  if shouldSearch then
    match tavilyResult with
    | .ok rs => (mkWebSearchResults rs, true)
    | .error _ => ("Web search failed. Please check your TAVILY_API_KEY in .env.local", false)
  else ("", false)

/-- Opening line of the SYSTEM_PROMPT template. -/
def promptIntro : String :=
  "\nYou are an AI assistant. Your primary task is to answer the user\x27s question using the provided Context from their uploaded documents.\n\n"

/-- Document-context block when chunks were retrieved. -/
def promptContextBlock (context : String) : String :=
  "📄 DOCUMENT CONTEXT (from uploaded files):\n" ++ context ++ "\n"

/-- Document-context notice when no chunks were retrieved. -/
def promptNoContextNotice : String :=
  "📄 DOCUMENT CONTEXT: No relevant information found in uploaded documents.\n"

/-- Web-results block when a web search was performed and returned text. -/
def promptWebBlock (webSearchResults : String) : String :=
  "🌐 WEB SEARCH RESULTS:\n" ++ webSearchResults ++ "\n"

/-- The fixed INSTRUCTIONS block of the SYSTEM_PROMPT template. -/
def promptInstructions : String :=
  "\n\nINSTRUCTIONS:\n1. **ALWAYS prioritize Document Context** - Check uploaded documents first\n2. **Source Attribution** - ALWAYS indicate where information comes from:\n   - If from documents: Start with \"📄 From your documents:\" or \"Based on your uploaded files:\"\n   - If from web: Start with \"🌐 From web search:\" or \"Based on web search results:\"\n3. **No Context Found** - If the answer is NOT in the Document Context AND no web search was performed:\n   - Clearly state: \"I couldn\x27t find this information in your uploaded documents.\"\n   - Then ask: \"Would you like me to search the web for this information? Just reply \x27yes\x27 to search.\"\n   - Do NOT answer from general knowledge without permission\n4. **Web Search Performed** - If web search results are provided above, use them to answer the question and cite sources with URLs\n5. **Be Clear and Concise** - Keep answers focused and well-formatted\n"

/-- The SYSTEM_PROMPT template of the chat route, as a function of the
document context, the formatted web results and the `searchPerformed` flag. -/
def mkSystemPrompt (context webSearchResults : String) (searchPerformed : Bool) : String :=
  promptIntro
  ++ (if context ≠ "" then promptContextBlock context else promptNoContextNotice)
  ++ "\n"
  ++ (if searchPerformed ∧ webSearchResults ≠ "" then promptWebBlock webSearchResults else "")
  ++ promptInstructions

/-- The POST /chat handler (sequential semantics: the request runs alone
against the store; external calls return the oracle's values). -/
def chatPOST (env : ChatEnv) (req : ChatRequest) (oracle : ChatOracle) (s : Redis) :
    ChatResponse × Redis :=
  let sessionId := chatSessionId req.headerSessionId
  if req.question = "" || sourcesMissing req.sources then
    (.json 400 { error := "Missing question or sources" }, s)
  else
    let (tokens, s1) := getSessionTokens s sessionId
    if tokens ≤ 0 then
      (.json 429 { error := "Daily limit reached. Please try again tomorrow.", tokens := some 0 },
       s1)
    else
      let (remainingTokens, s2) := decrementSessionTokens s1 sessionId
      if jsFalsy env.qdrantUrl || jsFalsy env.qdrantKey then
        (.json 500 { error := "Qdrant environment variables not set" }, s2)
      else if jsFalsy env.googleKey then
        (.json 500 { error := "Google API key not set" }, s2)
      else
        let searchResult := chatCandidates oracle.searchRanking
        let sessionResults := chatSessionResults searchResult sessionId
        let relevantChunks := chatRelevantChunks sessionResults
        let context := mkContext relevantChunks
        let shouldSearch := shouldPerformWebSearch req.question
        let searchQuery := searchQueryOf req.question req.conversationHistory
        let (webSearchResults, searchPerformed) :=
          chatWebSearch searchQuery shouldSearch oracle.tavilyResult
        (.stream (toString remainingTokens)
          (mkSystemPrompt context webSearchResults searchPerformed)
          ("User Question: " ++ req.question), s2)

/-! ## POST /ingest (`src/app/api/indexing/route.ts`)

The ingestion pipeline: extension dispatch (`handleFileUpload`), web scraping,
raw text, chunking via `RecursiveCharacterTextSplitter`, embedding + upsert
via `QdrantVectorStore.fromDocuments`, then the Redis source-list append
(`addSessionFile`).  Thrown errors land in the route's generic catch, which
answers status 500 with the error message. -/

/-- JS `file.name.toLowerCase().split(".").pop() || ""`: the (lower-cased)
segment after the last dot, the whole name when there is no dot, and the
empty string when the name ends in a dot. -/
def extensionOf (name : String) : String :=
  ⟨(((jsToLower name).data.reverse.takeWhile fun c => c != '.').reverse)⟩

/-- JS `s.split(/\s+/).filter(w => w.length > 0).length`: the number of
maximal runs of non-whitespace characters. -/
def countWords (s : String) : Nat :=
  countRuns (fun c => !c.isWhitespace) s.data false

/-- JS `(s.match(/\b\w+\b/g) || []).length`: the number of maximal runs of
word characters. -/
def countWordsWeb (s : String) : Nat :=
  countRuns (fun c => c.isAlphanum || c = '_') s.data false

/-- Display form of `(bytes / 1024).toFixed(1)` followed by " KB".  The JS
value is a float rounded to one decimal; this model truncates to one decimal
(no claim depends on the size label). -/
def kbString (bytes : Nat) : String :=
  toString (bytes * 10 / 1024 / 10) ++ "." ++ toString (bytes * 10 / 1024 % 10) ++ " KB"

/-- An uploaded file together with the outputs of the external extractors the
route may apply to it: `pdfPages` is what `WebPDFLoader` (with
`splitPages: true`) returns, `textContent` is what `file.text()` returns. -/
structure FileUpload where
  name : String
  bytes : Nat
  pdfPages : List String := []
  textContent : String := ""
deriving Repr, DecidableEq

structure FileMetrics where
  words : Nat
  pages : Nat
  type : String
deriving Repr, DecidableEq

structure WebMetrics where
  words : Nat
  docsCount : Nat
deriving Repr, DecidableEq

/-- `handleFileUpload` for a present file: dispatch on the declared extension.
The PDF branch enriches every page document with `source`, `type`, `page`,
`totalPages`, `size` and `tenant_id`; the md/txt/markdown branch builds a
single document; any other extension throws
`Unsupported file type: ...`.  (The loader's own metadata fields that the
spread `...doc.metadata` preserves are not claim-relevant and stay at their
defaults.) -/
def handleFileUpload (f : FileUpload) (sessionId : String) :
    Except String (FileMetrics × List Document) :=
  let extension := extensionOf f.name
  if extension = "pdf" then
    let pdfDocs := f.pdfPages
    let totalPages := pdfDocs.length
    let totalWords := pdfDocs.foldl (fun acc page => acc + countWords page) 0
    let docs := pdfDocs.enum.map fun (i, content) =>
      ({ pageContent := content,
         metadata :=
           { source := some f.name, type := some "pdf", page := some (i + 1),
             totalPages := some totalPages, size := some (kbString f.bytes),
             tenant_id := some sessionId } } : Document)
    .ok ({ words := totalWords, pages := totalPages, type := "pdf" }, docs)
  else if extension = "md" ∨ extension = "txt" ∨ extension = "markdown" then
    let textContent := f.textContent
    if jsTrim textContent = "" then .error "Empty text file"
    else
      let totalWords := countWords textContent
      let fileType := if extension = "md" ∨ extension = "markdown" then "markdown" else "text"
      .ok ({ words := totalWords, pages := 1, type := fileType },
        [{ pageContent := textContent,
           metadata :=
             { source := some f.name, type := some fileType,
               size := some (kbString f.bytes), tenant_id := some sessionId } }])
  else
    .error ("Unsupported file type: " ++ extension ++ ". Supported: PDF, MD, TXT.")

/-- Metadata enrichment of the website branch: each Cheerio document (content
and optional page title) gets `source`, `type`, `title`, `section` and
`tenant_id`. -/
def webEnrichedDocs (webDocs : List (String × Option String))
    (websiteUrl hostname sessionId : String) : List Document :=
  webDocs.enum.map fun (i, d) =>
    { pageContent := d.1,
      metadata :=
        { source := some websiteUrl, type := some "web",
          title := some (jsOrD d.2 hostname),
          sectionLabel := some ("Section " ++ toString (i + 1)),
          tenant_id := some sessionId } }

/-- `RecursiveCharacterTextSplitter.splitDocuments` (external library,
configured with chunkSize 1000, chunkOverlap 200 and separators
`["\n\n", "\n", " ", ""]`): the text chunking itself is the oracle function
`split`; every chunk inherits its parent document's metadata unchanged. -/
def splitDocuments (split : String → List String) (docs : List Document) : List Document :=
  docs.flatMap fun d =>
    (split d.pageContent).map fun c => { pageContent := c, metadata := d.metadata }

structure IndexingEnv where
  qdrantUrl : Option String := none
  qdrantKey : Option String := none
  googleKey : Option String := none
deriving Repr, DecidableEq

/-- Headers, query and multipart body of a POST /ingest request (`url` and
`text` as sent, before `.trim()`). -/
structure IndexingRequest where
  headerSessionId : Option String := none
  urlSessionId : Option String := none
  file : Option FileUpload := none
  url : Option String := none
  text : Option String := none
deriving Repr, DecidableEq

/-- Values returned by the external services during one ingestion:
the Cheerio documents for the website branch, URL validation/hostname
(`new URL(...)`), the text splitter, the combined embedding + Qdrant upsert
(`QdrantVectorStore.fromDocuments`, `Except.error` models a thrown failure),
and `Date.now()`. -/
structure IndexingOracle where
  webDocs : List (String × Option String) := []
  isValidURL : String → Bool := fun _ => true
  hostname : String → String := fun _ => ""
  split : String → List String := fun s => [s]
  upsert : Except String Unit := .ok ()
  now : Nat := 0

/-- `headerSessionId || urlSessionId || "default-session"`. -/
def sessionIdOf (headerSessionId urlSessionId : Option String) : String :=
  jsOrD headerSessionId (jsOrD urlSessionId "default-session")

structure SourceInfo where
  id : String
  name : String
  type : String
  documentsIndexed : Nat
  extractedWords : Nat
  extractedPages : Option Nat
deriving Repr, DecidableEq

inductive IndexingResponse
  | failure (status : Nat) (error : String)
  | success (status : Nat) (source : SourceInfo)
deriving Repr, DecidableEq

def IndexingResponse.status : IndexingResponse → Nat
  | .failure st _ => st
  | .success st _ => st

def IndexingResponse.isSuccess : IndexingResponse → Bool
  | .failure _ _ => false
  | .success _ _ => true

/-- Externally visible writes of one ingestion request: the embedding + upsert
call on the chunk list, and the Redis source-list append
(`addSessionFile` = `RPUSH` + `EXPIRE`). -/
inductive Effect
  | embedUpsert (chunks : List Document)
  | fileAdded (sessionId : String) (file : FileMetadata)
deriving Repr, DecidableEq

/-- The file step of the route body: absent file contributes the default
metrics and no documents; a present file goes through `handleFileUpload`,
whose thrown errors surface as status 500 via the route's catch. -/
def fileStepOf (file : Option FileUpload) (sessionId : String) :
    Except (Nat × String) (FileMetrics × List Document) :=
  match file with
  | none => .ok ({ words := 0, pages := 1, type := "" }, [])
  | some f =>
    match handleFileUpload f sessionId with
    | .error e => .error (500, e)
    | .ok r => .ok r

/-- The website step of the route body: URL validation (`new URL`, a direct
400 response on failure), Cheerio load and metadata enrichment. -/
def webStepOf (websiteUrl : Option String) (oracle : IndexingOracle) (sessionId : String) :
    Except (Nat × String) (WebMetrics × List Document) :=
  match websiteUrl with
  | none => .ok ({ words := 0, docsCount := 0 }, [])
  | some u =>
    if u = "" then .ok ({ words := 0, docsCount := 0 }, [])
    else if oracle.isValidURL u = false then .error (400, "Invalid URL format")
    else
      let wdocs := webEnrichedDocs oracle.webDocs u (oracle.hostname u) sessionId
      let totalWords := oracle.webDocs.foldl (fun acc d => acc + countWordsWeb d.1) 0
      .ok ({ words := totalWords, docsCount := oracle.webDocs.length }, wdocs)

/-- The raw-text step of the route body. -/
def textDocsOf (rawText : Option String) (sessionId : String) : List Document :=
  match rawText with
  | none => []
  | some t =>
    if t = "" then []
    else [{ pageContent := t,
            metadata := { source := some "User Text", type := some "text",
                          tenant_id := some sessionId } }]

/-- Steps 4.2.2-4.2.4 of the route body: the file branch (via
`handleFileUpload`), the website branch (URL validation, Cheerio load,
metadata enrichment) and the raw-text branch, accumulated into `docs` in that
order.  An `Except.error (status, message)` is an early error response:
status 400 for the direct `Invalid URL format` return, status 500 for thrown
errors reaching the route's generic catch. -/
def buildDocs (req : IndexingRequest) (oracle : IndexingOracle) (sessionId : String) :
    Except (Nat × String) (List Document × FileMetrics × WebMetrics) :=
  match fileStepOf req.file sessionId with
  | .error e => .error e
  | .ok (fileMetrics, fileDocs) =>
    match webStepOf (req.url.map jsTrim) oracle sessionId with
    | .error e => .error e
    | .ok (webMetrics, webDocs) =>
      .ok (fileDocs ++ webDocs ++ textDocsOf (req.text.map jsTrim) sessionId,
           fileMetrics, webMetrics)

/-- The unified-success-response fields (source type, extracted word count,
extracted pages, source name, source size) the route assembles after a
successful upsert. -/
def responseFields (req : IndexingRequest) (fileMetrics : FileMetrics)
    (webMetrics : WebMetrics) : String × Nat × Option Nat × String × String :=
  let websiteUrl := req.url.map jsTrim
  let rawText := req.text.map jsTrim
  match req.file with
  | some f =>
    ("file", fileMetrics.words,
     if fileMetrics.type = "pdf" then some fileMetrics.pages else none,
     f.name, kbString f.bytes)
  | none =>
    if !(jsFalsy websiteUrl) then
      ("url", webMetrics.words, none, jsOrD websiteUrl "", "URL")
    else
      ("text",
       (match rawText with | some t => countWords t | none => 0), none,
       "User Text",
       toString (((match rawText with | some t => t.length | none => 0) + 1023) / 1024)
         ++ " KB")

/-- The `FileMetadata` record the route appends to the session via
`addSessionFile` after a successful upsert (`fields` is source type, word
count, page count, source name, source size). -/
def newSourceOf (req : IndexingRequest) (oracle : IndexingOracle)
    (fileMetrics : FileMetrics) (webMetrics : WebMetrics) : FileMetadata :=
  let fields := responseFields req fileMetrics webMetrics
  { id := toString oracle.now, name := fields.2.2.2.1,
    type := jsOrD (some fileMetrics.type)
      (if fields.1 = "url" then "WEBSITE" else "TEXT"),
    size := fields.2.2.2.2, sourceType := fields.1, uploadedAt := oracle.now }

/-- The tail of the route body after `buildDocs` succeeded: empty-docs check,
chunking, embedding + upsert (`QdrantVectorStore.fromDocuments`), Redis
source-list append, success response. -/
def upsertStep (sessionId : String) (req : IndexingRequest) (oracle : IndexingOracle)
    (docs : List Document) (fileMetrics : FileMetrics) (webMetrics : WebMetrics) :
    IndexingResponse × List Effect :=
  if docs.isEmpty then (.failure 400 "No valid content found to index.", [])
  else
    let splitDocs := splitDocuments oracle.split docs
    match oracle.upsert with
    | .error e => (.failure 500 e, [.embedUpsert splitDocs])
    | .ok _ =>
      let fields := responseFields req fileMetrics webMetrics
      let newSource := newSourceOf req oracle fileMetrics webMetrics
      (.success 200
         { id := newSource.id, name := newSource.name, type := newSource.type,
           documentsIndexed := docs.length, extractedWords := fields.2.1,
           extractedPages := fields.2.2.1 },
       [.embedUpsert splitDocs, .fileAdded sessionId newSource])

/-- The POST /ingest handler: env check, content-presence check, document
building, chunking, embedding + upsert, Redis bookkeeping, success response.
Returns the HTTP response together with the external writes made, in order. -/
def indexingPOST (env : IndexingEnv) (req : IndexingRequest) (oracle : IndexingOracle) :
    IndexingResponse × List Effect :=
  let sessionId := sessionIdOf req.headerSessionId req.urlSessionId
  if jsFalsy env.qdrantUrl || jsFalsy env.qdrantKey || jsFalsy env.googleKey then
    (.failure 500 "Missing environment variables: QDRANT_URL, QDRANT_KEY, GOOGLE_GENERATIVE_AI_API_KEY",
     [])
  else
    if req.file.isNone && jsFalsy (req.url.map jsTrim) && jsFalsy (req.text.map jsTrim) then
      (.failure 400 "Please upload a file, provide a URL, or enter text.", [])
    else
      match buildDocs req oracle sessionId with
      | .error (st, msg) => (.failure st msg, [])
      | .ok (docs, fileMetrics, webMetrics) =>
        upsertStep sessionId req oracle docs fileMetrics webMetrics

/-! ## DELETE /ingest and DELETE /session

Both handlers fetch one `scroll("PDF_Indexing", { limit: 1000, ... })` page,
select matching points in JS, and delete the selected ids.  The ingest
deletion matches on the payload source name only; the session deletion
matches on the tenant id. -/

def scrollLimit : Nat := 1000

/-- The single scroll page both DELETE handlers examine. -/
def scrolledPoints (collection : List ScoredPoint) : List ScoredPoint :=
  collection.take scrollLimit

/-- `point.payload?.metadata?.source || point.payload?.source`. -/
def pointSourceOf (p : ScoredPoint) : Option String :=
  jsOrS ((p.payload.bind PointPayload.metadata).bind DocMetadata.source)
    (p.payload.bind PointPayload.source)

/-- The match predicate of DELETE /ingest: exact source-name match, or the
legacy `user_text` source when deleting "User Text". -/
def ingestDeleteMatches (fileName : String) (p : ScoredPoint) : Bool :=
  pointSourceOf p == some fileName ||
    (fileName == "User Text" && pointSourceOf p == some "user_text")

/-- Ids the DELETE /ingest handler deletes: matches within the scrolled page. -/
def ingestDeleteIds (collection : List ScoredPoint) (fileName : String) : List Nat :=
  ((scrolledPoints collection).filter (ingestDeleteMatches fileName)).map ScoredPoint.id

/-- Ids the DELETE /session handler deletes: points of the scrolled page whose
effective tenant id is the session's. -/
def sessionDeleteIds (collection : List ScoredPoint) (sessionId : String) : List Nat :=
  ((scrolledPoints collection).filter fun p => effectiveTenantId p == some sessionId).map
    ScoredPoint.id

structure QdrantEnv where
  url : Option String := none
  key : Option String := none
deriving Repr, DecidableEq

inductive DeleteResponse
  | failure (status : Nat) (error : String)
  | success (deleted : Nat) (message : String)
deriving Repr, DecidableEq

/-- External writes of one DELETE /ingest request: the ids removed from the
Qdrant collection and the Redis source-list removal (session id, file name). -/
structure DeleteEffects where
  deletedPointIds : List Nat
  removedSessionFile : Option (String × String)
deriving Repr, DecidableEq

/-- The DELETE /ingest handler.  Note that the Qdrant deletion depends only on
`fileName` and the collection; the session id is used solely for the Redis
source-list removal. -/
def ingestDELETE (fileName : Option String) (headerSessionId urlSessionId : Option String)
    (env : QdrantEnv) (collection : List ScoredPoint) : DeleteResponse × DeleteEffects :=
  if jsFalsy fileName then
    (.failure 400 "fileName required", ⟨[], none⟩)
  else
    let fn := jsOrD fileName ""
    if jsFalsy env.url || jsFalsy env.key then
      (.failure 500 "Qdrant not configured", ⟨[], none⟩)
    else
      let toDelete := ingestDeleteIds collection fn
      if toDelete.isEmpty then
        (.success 0 ("No embeddings found for \"" ++ fn ++ "\""), ⟨[], none⟩)
      else
        let sessionId := sessionIdOf headerSessionId urlSessionId
        (.success toDelete.length
           ("Deleted " ++ toString toDelete.length ++ " embeddings for \"" ++ fn ++ "\""),
         ⟨toDelete, some (sessionId, fn)⟩)

/-! ## Derived forms and concrete fixtures -/

/-- Payload `QdrantVectorStore.fromDocuments` stores for a chunk:
`{ content: pageContent, metadata }` (LangChain's default content key). -/
def payloadOfDoc (d : Document) : PointPayload :=
  { content := some d.pageContent, metadata := some d.metadata }

/-- A stored chunk as the search later returns it. -/
def pointOfDoc (id : Nat) (d : Document) : ScoredPoint :=
  { id := id, payload := some (payloadOfDoc d) }

/-- A stored point with the given tenant and source name, as produced by this
application's ingestion (metadata nested under the payload). -/
def mkPoint (i : Nat) (tenant source : String) : ScoredPoint :=
  { id := i,
    payload := some
      { metadata := some { source := some source, tenant_id := some tenant },
        content := some ("chunk " ++ toString i) } }

def chatRequestValid (req : ChatRequest) : Prop :=
  req.question ≠ "" ∧ sourcesMissing req.sources = false

def chatEnvReady (env : ChatEnv) : Prop :=
  jsFalsy env.qdrantUrl = false ∧ jsFalsy env.qdrantKey = false ∧ jsFalsy env.googleKey = false

def indexingEnvReady (env : IndexingEnv) : Prop :=
  jsFalsy env.qdrantUrl = false ∧ jsFalsy env.qdrantKey = false ∧ jsFalsy env.googleKey = false

/-- Chat environment with all required variables present. -/
def envC : ChatEnv := { qdrantUrl := some "u", qdrantKey := some "k", googleKey := some "g" }

/-- Indexing environment with all required variables present. -/
def envI : IndexingEnv := { qdrantUrl := some "u", qdrantKey := some "k", googleKey := some "g" }

/-- A store in which session `s1` has 5 remaining tokens. -/
def redisC : Redis := { kv := [(sessionTokensKey "s1", 5)], ttl := [] }

/-! ## Helper lemmas -/

theorem substr_refl (p : String) : p.data <:+: p.data :=
  ⟨[], [], by simp⟩

theorem substr_appendL (a : String) {p b : String} (h : p.data <:+: b.data) :
    p.data <:+: (a ++ b).data := by
  obtain ⟨s, t, hst⟩ := h
  exact ⟨a.data ++ s, t, by rw [String.data_append, ← hst]; simp⟩

theorem substr_appendR (b : String) {p a : String} (h : p.data <:+: a.data) :
    p.data <:+: (a ++ b).data := by
  obtain ⟨s, t, hst⟩ := h
  exact ⟨s, t ++ b.data, by rw [String.data_append, ← hst]; simp⟩

theorem lookup_kvSet (l : List (String × Int)) (k : String) (v : Int) :
    (kvSet l k v).lookup k = some v := by
  simp [kvSet, List.lookup]

theorem Redis.get_expire (s : Redis) (k k2 : String) (ex : Nat) :
    (s.expire k ex).get k2 = s.get k2 := by
  unfold Redis.expire Redis.get
  split <;> rfl

/-- The quota-exhausted branch of POST /chat: with a valid body, a stored
counter value at most 0 yields the 429 response with `tokens: 0` and leaves
the store untouched. -/
theorem chatPOST_rejects (env : ChatEnv) (req : ChatRequest) (oracle : ChatOracle) (s : Redis)
    (hq : req.question ≠ "") (hs : sourcesMissing req.sources = false)
    (hneg : (getSessionTokens s (chatSessionId req.headerSessionId)).1 ≤ 0) :
    chatPOST env req oracle s
      = (.json 429 { error := "Daily limit reached. Please try again tomorrow.", tokens := some 0 },
         s) := by
  rcases hkey : s.get (sessionTokensKey (chatSessionId req.headerSessionId)) with _ | v
  · exfalso
    have : (getSessionTokens s (chatSessionId req.headerSessionId)).1 = DEFAULT_TOKENS := by
      simp [getSessionTokens, hkey]
    rw [this] at hneg
    exact absurd hneg (by decide)
  · have hval : (getSessionTokens s (chatSessionId req.headerSessionId)).1 = v := by
      simp [getSessionTokens, hkey]
    rw [hval] at hneg
    simp [chatPOST, hq, hs, getSessionTokens, hkey, hneg]

/-- The successful branch of POST /chat: with a valid body, a configured
environment and a positive counter read, the route streams with the
post-decrement value in the `x-remaining-tokens` header, the prompt built by
the retrieval/web pipeline, and the stored counter decremented by exactly
one. -/
theorem chatPOST_streams (env : ChatEnv) (req : ChatRequest) (oracle : ChatOracle) (s : Redis)
    (hq : req.question ≠ "") (hs : sourcesMissing req.sources = false)
    (h1 : jsFalsy env.qdrantUrl = false) (h2 : jsFalsy env.qdrantKey = false)
    (h3 : jsFalsy env.googleKey = false)
    (hpos : 0 < (getSessionTokens s (chatSessionId req.headerSessionId)).1) :
    chatPOST env req oracle s
      = (.stream (toString ((getSessionTokens s (chatSessionId req.headerSessionId)).1 - 1))
          (mkSystemPrompt
            (mkContext (chatRelevantChunks (chatSessionResults
              (chatCandidates oracle.searchRanking) (chatSessionId req.headerSessionId))))
            (chatWebSearch (searchQueryOf req.question req.conversationHistory)
              (shouldPerformWebSearch req.question) oracle.tavilyResult).1
            (chatWebSearch (searchQueryOf req.question req.conversationHistory)
              (shouldPerformWebSearch req.question) oracle.tavilyResult).2)
          ("User Question: " ++ req.question),
         (decrementSessionTokens (getSessionTokens s (chatSessionId req.headerSessionId)).2
            (chatSessionId req.headerSessionId)).2)
    ∧ (chatPOST env req oracle s).2.get (sessionTokensKey (chatSessionId req.headerSessionId))
        = some ((getSessionTokens s (chatSessionId req.headerSessionId)).1 - 1) := by
  rcases hkey : s.get (sessionTokensKey (chatSessionId req.headerSessionId)) with _ | v
  all_goals simp only [Redis.get] at hkey
  · constructor
    · simp [chatPOST, hq, hs, h1, h2, h3, getSessionTokens, hkey, DEFAULT_TOKENS,
        decrementSessionTokens, Redis.decr, Redis.set, Redis.get, lookup_kvSet]
    · simp [chatPOST, hq, hs, h1, h2, h3, getSessionTokens, hkey, DEFAULT_TOKENS,
        decrementSessionTokens, Redis.decr, Redis.set, Redis.get, Redis.get_expire,
        Redis.expire, lookup_kvSet, kvSet, List.lookup]
  · have hval : (getSessionTokens s (chatSessionId req.headerSessionId)).1 = v := by
      simp [getSessionTokens, Redis.get, hkey]
    rw [hval] at hpos ⊢
    have hnotle : ¬ v ≤ 0 := not_le.mpr hpos
    constructor
    · simp [chatPOST, hq, hs, h1, h2, h3, getSessionTokens, hkey, hnotle,
        decrementSessionTokens, Redis.decr, Redis.get]
    · simp [chatPOST, hq, hs, h1, h2, h3, getSessionTokens, hkey, hnotle,
        decrementSessionTokens, Redis.decr, Redis.get, Redis.get_expire,
        Redis.expire, kvSet, List.lookup]

/-! ## Claim C2 -/

/-- C2: the quota check-and-consume of POST /chat is not one atomic store
operation.  The route issues `GET`, then `DECR`, then `EXPIRE` as separate
commands, and with one unit remaining the interleaving
GET(A), GET(B), DECR(A), DECR(B), EXPIRE(A), EXPIRE(B) of two concurrent
requests lets both requests observe the last unit as sufficient (both finish
accepted) and drives the stored counter to -1, below zero. -/
theorem c2_quota_race :
    (QuotaRace.run2 (sessionTokensKey "s1") [true, false, true, false, true, false]
        { kv := [(sessionTokensKey "s1", 1)], ttl := [(sessionTokensKey "s1", 86400)] }
        .start .start).2
      = (QuotaRace.PC.done (some 0), QuotaRace.PC.done (some (-1)))
    ∧ (QuotaRace.run2 (sessionTokensKey "s1") [true, false, true, false, true, false]
        { kv := [(sessionTokensKey "s1", 1)], ttl := [(sessionTokensKey "s1", 86400)] }
        .start .start).1.get (sessionTokensKey "s1") = some (-1) := by
  constructor <;> rfl

/-! ## Claim C5 -/

/-- C5: the chat route's similarity search requests only `limit: 4` candidate
points — not the claimed oversampled `max(k * 4, 15)` — and therefore a
same-tenant chunk ranked fifth in the collection's relevance order is never
seen by the tenant filter: retrieval returns nothing although the session has
a relevant chunk. -/
theorem c5_no_oversampling :
    chatSearchLimit = 4
    ∧ chatSearchLimit < max (chatResultK * 4) 15
    ∧ chatSessionResults
        (chatCandidates
          [mkPoint 1 "other" "o.pdf", mkPoint 2 "other" "o.pdf", mkPoint 3 "other" "o.pdf",
           mkPoint 4 "other" "o.pdf", mkPoint 5 "mine" "a.pdf"]) "mine" = []
    ∧ effectiveTenantId (mkPoint 5 "mine" "a.pdf") = some "mine" := by
  refine ⟨rfl, by decide, by decide, rfl⟩

/-! ## Claim C6 -/

/-- The request of the C6 scenario: the client asks with `targetSource`
"a.pdf" (as `page.tsx` sends when a source is active). -/
def c6Req : ChatRequest :=
  { headerSessionId := some "s1", question := "what is x",
    sources := some ["a.pdf", "b.pdf"], targetSource := some "a.pdf" }

/-- A same-tenant point belonging to the other source "b.pdf". -/
def c6Point : ScoredPoint := mkPoint 7 "s1" "b.pdf"

def c6Oracle : ChatOracle := { searchRanking := [c6Point], tavilyResult := .ok [] }

set_option maxRecDepth 40000 in
/-- C6: the chat route never reads `targetSource`.  With `targetSource`
"a.pdf" in the request body, the candidate from source "b.pdf" (same tenant)
is kept by the filter and its content becomes the document grounding of the
system prompt. -/
theorem c6_target_source_ignored :
    c6Req.targetSource = some "a.pdf"
    ∧ pointSourceOf c6Point = some "b.pdf"
    ∧ chatSessionResults (chatCandidates c6Oracle.searchRanking) "s1" = [c6Point]
    ∧ (chatPOST envC c6Req c6Oracle redisC).1
        = .stream "4" (mkSystemPrompt (mkContext (chatRelevantChunks [c6Point])) "" false)
            "User Question: what is x" := by
  refine ⟨rfl, by decide, by decide, by decide⟩

/-! ## Claim C3 -/

/-- C3: for a sequential POST /chat with a valid body and configured
environment — when the stored quota value read for the session is at most 0,
the response is status 429 with body `{ error, tokens: 0 }` and the store is
unchanged (no decrement); otherwise the route streams, the
`x-remaining-tokens` header carries the post-decrement value, and the stored
counter is exactly one below the value read. -/
theorem c3_sequential_quota (env : ChatEnv) (req : ChatRequest) (oracle : ChatOracle) (s : Redis)
    (hq : req.question ≠ "") (hs : sourcesMissing req.sources = false)
    (henv : chatEnvReady env) :
    ((getSessionTokens s (chatSessionId req.headerSessionId)).1 ≤ 0 →
      chatPOST env req oracle s
        = (.json 429
            { error := "Daily limit reached. Please try again tomorrow.", tokens := some 0 },
           s))
    ∧ (0 < (getSessionTokens s (chatSessionId req.headerSessionId)).1 →
      (∃ sys prompt,
        (chatPOST env req oracle s).1
          = .stream (toString ((getSessionTokens s (chatSessionId req.headerSessionId)).1 - 1))
              sys prompt)
      ∧ (chatPOST env req oracle s).2.get (sessionTokensKey (chatSessionId req.headerSessionId))
          = some ((getSessionTokens s (chatSessionId req.headerSessionId)).1 - 1)) := by
  obtain ⟨h1, h2, h3⟩ := henv
  refine ⟨fun hneg => chatPOST_rejects env req oracle s hq hs hneg, fun hpos => ?_⟩
  obtain ⟨heq, hget⟩ := chatPOST_streams env req oracle s hq hs h1 h2 h3 hpos
  exact ⟨⟨_, _, by rw [heq]⟩, hget⟩

/-- A valid chat request for session `s1`. -/
def reqW : ChatRequest :=
  { headerSessionId := some "s1", question := "what is x", sources := some ["a.pdf"] }

def oracleW : ChatOracle := { searchRanking := [], tavilyResult := .ok [] }

/-- A store in which session `s1` has 0 remaining tokens. -/
def redisZero : Redis := { kv := [(sessionTokensKey "s1", 0)], ttl := [] }

theorem c3_witness :
    chatPOST envC reqW oracleW redisZero
      = (.json 429
          { error := "Daily limit reached. Please try again tomorrow.", tokens := some 0 },
         redisZero)
    ∧ (chatPOST envC reqW oracleW redisC).2.get (sessionTokensKey "s1") = some 4 := by
  constructor
  · exact (c3_sequential_quota envC reqW oracleW redisZero (by decide) (by decide)
      ⟨rfl, rfl, rfl⟩).1 (by decide)
  · have h := (c3_sequential_quota envC reqW oracleW redisC (by decide) (by decide)
      ⟨rfl, rfl, rfl⟩).2 (by decide)
    have h4 : (getSessionTokens redisC (chatSessionId reqW.headerSessionId)).1 - 1 = 4 := by
      decide
    rw [h4] at h
    exact h.2

/-! ## Claim C4 -/

theorem mkSystemPrompt_contains_instructions (context web : String) (sp : Bool) {p : String}
    (h : p.data <:+: promptInstructions.data) :
    p.data <:+: (mkSystemPrompt context web sp).data := by
  unfold mkSystemPrompt
  exact substr_appendL _ h

theorem mkSystemPrompt_noContext (web : String) (sp : Bool) :
    promptNoContextNotice.data <:+: (mkSystemPrompt "" web sp).data := by
  unfold mkSystemPrompt
  rw [if_neg (by simp)]
  exact substr_appendR _ (substr_appendR _ (substr_appendR _
    (substr_appendL _ (substr_refl _))))

theorem mkSystemPrompt_contextBlock (context web : String) (sp : Bool) (hc : context ≠ "") :
    (promptContextBlock context).data <:+: (mkSystemPrompt context web sp).data := by
  unfold mkSystemPrompt
  rw [if_pos hc]
  exact substr_appendR _ (substr_appendR _ (substr_appendR _
    (substr_appendL _ (substr_refl _))))

theorem mkSystemPrompt_webResults (context web : String) (hw : web ≠ "") :
    web.data <:+: (mkSystemPrompt context web true).data := by
  unfold mkSystemPrompt
  rw [if_pos (show (true = true) ∧ ¬ web = "" from ⟨rfl, hw⟩)]
  unfold promptWebBlock
  exact substr_appendR _ (substr_appendL _ (substr_appendR _
    (substr_appendL _ (substr_refl _))))

theorem substr_of_split {p s : String} (pre post : String) (h : pre ++ p ++ post = s) :
    p.data <:+: s.data :=
  ⟨pre.data, post.data, by rw [← h]; simp [String.data_append]⟩

set_option maxRecDepth 10000 in
theorem promptInstructions_refusal :
    ("- Clearly state: \"I couldn\x27t find this information in your uploaded documents.\"").data
      <:+: promptInstructions.data :=
  substr_of_split
    "\n\nINSTRUCTIONS:\n1. **ALWAYS prioritize Document Context** - Check uploaded documents first\n2. **Source Attribution** - ALWAYS indicate where information comes from:\n   - If from documents: Start with \"📄 From your documents:\" or \"Based on your uploaded files:\"\n   - If from web: Start with \"🌐 From web search:\" or \"Based on web search results:\"\n3. **No Context Found** - If the answer is NOT in the Document Context AND no web search was performed:\n   "
    "\n   - Then ask: \"Would you like me to search the web for this information? Just reply \x27yes\x27 to search.\"\n   - Do NOT answer from general knowledge without permission\n4. **Web Search Performed** - If web search results are provided above, use them to answer the question and cite sources with URLs\n5. **Be Clear and Concise** - Keep answers focused and well-formatted\n"
    (by decide)

set_option maxRecDepth 10000 in
theorem promptInstructions_noGeneralKnowledge :
    ("- Do NOT answer from general knowledge without permission").data
      <:+: promptInstructions.data :=
  substr_of_split
    "\n\nINSTRUCTIONS:\n1. **ALWAYS prioritize Document Context** - Check uploaded documents first\n2. **Source Attribution** - ALWAYS indicate where information comes from:\n   - If from documents: Start with \"📄 From your documents:\" or \"Based on your uploaded files:\"\n   - If from web: Start with \"🌐 From web search:\" or \"Based on web search results:\"\n3. **No Context Found** - If the answer is NOT in the Document Context AND no web search was performed:\n   - Clearly state: \"I couldn\x27t find this information in your uploaded documents.\"\n   - Then ask: \"Would you like me to search the web for this information? Just reply \x27yes\x27 to search.\"\n   "
    "\n4. **Web Search Performed** - If web search results are provided above, use them to answer the question and cite sources with URLs\n5. **Be Clear and Concise** - Keep answers focused and well-formatted\n"
    (by decide)

set_option maxRecDepth 100000 in
/-- C4 (amended): the retrieved chunk context is the only request-dependent
grounding while no web search is triggered; with zero chunks the prompt embeds
the no-information notice and the instruction to state the fixed refusal
sentence and not answer from general knowledge without permission (offering a
web search instead); with chunks present the document-context block embedding
exactly the chunk context is present; and when the user triggers or confirms a
web search, the formatted web results are additionally embedded as
grounding. -/
theorem c4_grounding_amended :
    (∀ env req oracle s,
      req.question ≠ "" → sourcesMissing req.sources = false → chatEnvReady env →
      shouldPerformWebSearch req.question = false →
      0 < (getSessionTokens s (chatSessionId req.headerSessionId)).1 →
      (chatPOST env req oracle s).1
        = .stream (toString ((getSessionTokens s (chatSessionId req.headerSessionId)).1 - 1))
            (mkSystemPrompt (mkContext (chatRelevantChunks (chatSessionResults
              (chatCandidates oracle.searchRanking) (chatSessionId req.headerSessionId)))) "" false)
            ("User Question: " ++ req.question))
    ∧ (∀ web sp, promptNoContextNotice.data <:+: (mkSystemPrompt "" web sp).data)
    ∧ (∀ context web sp,
        ("- Clearly state: \"I couldn\x27t find this information in your uploaded documents.\"").data
          <:+: (mkSystemPrompt context web sp).data)
    ∧ (∀ context web sp,
        ("- Do NOT answer from general knowledge without permission").data
          <:+: (mkSystemPrompt context web sp).data)
    ∧ (∀ context web sp, context ≠ "" →
        (promptContextBlock context).data <:+: (mkSystemPrompt context web sp).data)
    ∧ (∀ context web, web ≠ "" → web.data <:+: (mkSystemPrompt context web true).data) := by
  refine ⟨?_, mkSystemPrompt_noContext, ?_, ?_, mkSystemPrompt_contextBlock,
    mkSystemPrompt_webResults⟩
  · intro env req oracle s hq hs henv hweb hpos
    obtain ⟨h1, h2, h3⟩ := henv
    have h := (chatPOST_streams env req oracle s hq hs h1 h2 h3 hpos).1
    rw [h, hweb]
    simp [chatWebSearch]
  · intro context web sp
    exact mkSystemPrompt_contains_instructions context web sp promptInstructions_refusal
  · intro context web sp
    exact mkSystemPrompt_contains_instructions context web sp promptInstructions_noGeneralKnowledge

/-- The C4 scenario: the question explicitly requests a web search, no chunk
survives retrieval filtering, and Tavily returns a result. -/
def c4Req : ChatRequest :=
  { headerSessionId := some "s1",
    question := "please search the web for the capital of France",
    sources := some ["a.pdf"] }

def c4Results : List WebResult :=
  [{ title := "Paris", content := "The capital of France is Paris.",
     url := "https://example.com" }]

def c4Oracle : ChatOracle := { searchRanking := [], tavilyResult := .ok c4Results }

set_option maxRecDepth 100000 in
/-- C4 counterexample: zero chunks survive retrieval filtering, yet the system
prompt supplies the Tavily web-search content as grounding (and instructs its
use), so the retrieved chunks are not the only permissible factual grounding
and no unconditional fixed refusal is mandated. -/
theorem c4_counterexample :
    chatSessionResults (chatCandidates c4Oracle.searchRanking) "s1" = []
    ∧ (chatPOST envC c4Req c4Oracle redisC).1
        = .stream "4" (mkSystemPrompt "" (mkWebSearchResults c4Results) true)
            ("User Question: " ++ c4Req.question)
    ∧ ("The capital of France is Paris.").data
        <:+: (mkSystemPrompt "" (mkWebSearchResults c4Results) true).data := by
  refine ⟨rfl, ?_, ?_⟩
  · have h := congrArg Prod.fst
      ((chatPOST_streams envC c4Req c4Oracle redisC (by decide) (by decide) rfl rfl rfl
        (by decide)).1)
    have hsearch : shouldPerformWebSearch c4Req.question = true := by decide
    have hweb : chatWebSearch (searchQueryOf c4Req.question c4Req.conversationHistory)
        (shouldPerformWebSearch c4Req.question) c4Oracle.tavilyResult
        = (mkWebSearchResults c4Results, true) := by
      rw [hsearch]; rfl
    rw [h]
    dsimp only
    rw [hweb]
    rfl
  · have hsub : ("The capital of France is Paris.").data
        <:+: (mkWebSearchResults c4Results).data := by decide
    exact hsub.trans (mkSystemPrompt_webResults "" _ (by decide))

theorem c4_witness :
    (chatPOST envC reqW oracleW redisC).1
      = .stream "4" (mkSystemPrompt "" "" false) ("User Question: " ++ reqW.question)
    ∧ promptNoContextNotice.data <:+: (mkSystemPrompt "" "xyz" true).data := by
  constructor
  · have h := (c4_grounding_amended).1 envC reqW oracleW redisC (by decide) (by decide)
      ⟨rfl, rfl, rfl⟩ (by decide) (by decide)
    exact h
  · exact (c4_grounding_amended).2.1 "xyz" true

/-! ## Claim C1 -/

theorem jsOrD_ne_empty (a : Option String) (b : String) (hb : b ≠ "") : jsOrD a b ≠ "" := by
  unfold jsOrD
  rcases a with _ | s
  · exact hb
  · dsimp only
    by_cases hs : s = ""
    · rw [if_pos hs]; exact hb
    · rw [if_neg hs]; exact hs

theorem sessionIdOf_ne_empty (h u : Option String) : sessionIdOf h u ≠ "" :=
  jsOrD_ne_empty _ _ (jsOrD_ne_empty _ _ (by decide))

theorem handleFileUpload_tenant (f : FileUpload) (sessionId : String) (fm : FileMetrics)
    (ds : List Document) (h : handleFileUpload f sessionId = .ok (fm, ds)) :
    ∀ d ∈ ds, d.metadata.tenant_id = some sessionId := by
  intro d hd
  unfold handleFileUpload at h
  dsimp only at h
  split at h
  · -- pdf branch
    simp only [Except.ok.injEq, Prod.mk.injEq] at h
    rw [← h.2] at hd
    rw [List.mem_map] at hd
    obtain ⟨⟨i, c⟩, -, rfl⟩ := hd
    rfl
  · split at h
    · -- md/txt/markdown branch
      split at h
      · exact absurd h (by simp)
      · simp only [Except.ok.injEq, Prod.mk.injEq] at h
        rw [← h.2] at hd
        rw [List.mem_singleton] at hd
        rw [hd]
    · exact absurd h (by simp)

theorem webEnrichedDocs_tenant (webDocs : List (String × Option String))
    (websiteUrl hostname sessionId : String) :
    ∀ d ∈ webEnrichedDocs webDocs websiteUrl hostname sessionId,
      d.metadata.tenant_id = some sessionId := by
  intro d hd
  unfold webEnrichedDocs at hd
  rw [List.mem_map] at hd
  obtain ⟨⟨i, c⟩, -, rfl⟩ := hd
  rfl

theorem fileStepOf_tenant (file : Option FileUpload) (sessionId : String) (fm : FileMetrics)
    (ds : List Document) (h : fileStepOf file sessionId = .ok (fm, ds)) :
    ∀ d ∈ ds, d.metadata.tenant_id = some sessionId := by
  intro d hd
  unfold fileStepOf at h
  split at h
  · simp only [Except.ok.injEq, Prod.mk.injEq] at h
    rw [← h.2] at hd
    simp at hd
  · rename_i f
    split at h
    · exact absurd h (by simp)
    · rename_i r hok
      obtain ⟨rfm, rds⟩ := r
      simp only [Except.ok.injEq, Prod.mk.injEq] at h
      obtain ⟨h1, h2⟩ := h
      subst h1
      subst h2
      exact handleFileUpload_tenant f sessionId _ _ hok d hd

theorem webStepOf_tenant (websiteUrl : Option String) (oracle : IndexingOracle)
    (sessionId : String) (wm : WebMetrics) (ds : List Document)
    (h : webStepOf websiteUrl oracle sessionId = .ok (wm, ds)) :
    ∀ d ∈ ds, d.metadata.tenant_id = some sessionId := by
  intro d hd
  unfold webStepOf at h
  split at h
  · simp only [Except.ok.injEq, Prod.mk.injEq] at h
    rw [← h.2] at hd
    simp at hd
  · rename_i u
    split at h
    · simp only [Except.ok.injEq, Prod.mk.injEq] at h
      rw [← h.2] at hd
      simp at hd
    · split at h
      · exact absurd h (by simp)
      · simp only [Except.ok.injEq, Prod.mk.injEq] at h
        rw [← h.2] at hd
        exact webEnrichedDocs_tenant _ _ _ _ d hd

theorem textDocsOf_tenant (rawText : Option String) (sessionId : String) :
    ∀ d ∈ textDocsOf rawText sessionId, d.metadata.tenant_id = some sessionId := by
  intro d hd
  unfold textDocsOf at hd
  split at hd
  · simp at hd
  · split at hd
    · simp at hd
    · rw [List.mem_singleton] at hd
      rw [hd]

theorem buildDocs_tenant (req : IndexingRequest) (oracle : IndexingOracle) (sessionId : String)
    (docs : List Document) (fm : FileMetrics) (wm : WebMetrics)
    (h : buildDocs req oracle sessionId = .ok (docs, fm, wm)) :
    ∀ d ∈ docs, d.metadata.tenant_id = some sessionId := by
  intro d hd
  unfold buildDocs at h
  split at h
  · exact absurd h (by simp)
  · rename_i fmx r1 hfile
    split at h
    · exact absurd h (by simp)
    · rename_i wmx r2 hweb
      simp only [Except.ok.injEq, Prod.mk.injEq] at h
      obtain ⟨hdocs, -, -⟩ := h
      rw [← hdocs] at hd
      rw [List.mem_append] at hd
      rcases hd with hd | hd
      · rw [List.mem_append] at hd
        rcases hd with hd | hd
        · exact fileStepOf_tenant req.file sessionId fmx r1 hfile d hd
        · exact webStepOf_tenant (req.url.map jsTrim) oracle sessionId wmx r2 hweb d hd
      · exact textDocsOf_tenant (req.text.map jsTrim) sessionId d hd

theorem splitDocuments_metadata (split : String → List String) (docs : List Document)
    (d : Document) (hd : d ∈ splitDocuments split docs) :
    ∃ d0 ∈ docs, d.metadata = d0.metadata := by
  unfold splitDocuments at hd
  rw [List.mem_flatMap] at hd
  obtain ⟨d0, hd0, hmem⟩ := hd
  rw [List.mem_map] at hmem
  obtain ⟨c, -, rfl⟩ := hmem
  exact ⟨d0, hd0, rfl⟩

/-- Any chunk list the ingestion route hands to the embedding/upsert call is
the split of a successful `buildDocs` run. -/
theorem upsertStep_upsert_shape (sessionId : String) (req : IndexingRequest)
    (oracle : IndexingOracle) (docs : List Document) (fileMetrics : FileMetrics)
    (webMetrics : WebMetrics) (ds : List Document)
    (h : Effect.embedUpsert ds ∈ (upsertStep sessionId req oracle docs fileMetrics webMetrics).2) :
    ds = splitDocuments oracle.split docs := by
  unfold upsertStep at h
  split at h
  · simp at h
  · split at h
    · simp only [List.mem_singleton, Effect.embedUpsert.injEq] at h
      exact h
    · simp only [List.mem_cons, List.mem_singleton] at h
      rcases h with h | h
      · rw [Effect.embedUpsert.injEq] at h
        exact h
      · exact absurd h (by simp)

/-- The branch structure of one ingestion run: either no external write
happened, or `buildDocs` succeeded and the run is its `upsertStep` tail. -/
theorem indexingPOST_cases (env : IndexingEnv) (req : IndexingRequest)
    (oracle : IndexingOracle) :
    (indexingPOST env req oracle).2 = []
    ∨ ∃ docs fm wm,
        buildDocs req oracle (sessionIdOf req.headerSessionId req.urlSessionId)
          = .ok (docs, fm, wm)
        ∧ indexingPOST env req oracle
            = upsertStep (sessionIdOf req.headerSessionId req.urlSessionId) req oracle
                docs fm wm := by
  unfold indexingPOST
  dsimp only
  split
  · exact Or.inl rfl
  · split
    · exact Or.inl rfl
    · split
      · exact Or.inl rfl
      · rename_i docs fm wm heq
        exact Or.inr ⟨docs, fm, wm, heq, rfl⟩

theorem indexingPOST_upsert_shape (env : IndexingEnv) (req : IndexingRequest)
    (oracle : IndexingOracle) (ds : List Document)
    (h : Effect.embedUpsert ds ∈ (indexingPOST env req oracle).2) :
    ∃ docs fm wm,
      buildDocs req oracle (sessionIdOf req.headerSessionId req.urlSessionId) = .ok (docs, fm, wm)
      ∧ ds = splitDocuments oracle.split docs := by
  rcases indexingPOST_cases env req oracle with hc | ⟨docs, fm, wm, hb, heq⟩
  · rw [hc] at h
    exact absurd h (by simp)
  · rw [heq] at h
    exact ⟨docs, fm, wm, hb, upsertStep_upsert_shape _ _ _ _ _ _ _ h⟩

/-- Every chunk the ingestion route upserts carries the requesting session's
id as its metadata tenant id. -/
theorem indexingPOST_upsert_tenant (env : IndexingEnv) (req : IndexingRequest)
    (oracle : IndexingOracle) (ds : List Document) (d : Document)
    (hmem : Effect.embedUpsert ds ∈ (indexingPOST env req oracle).2) (hd : d ∈ ds) :
    d.metadata.tenant_id = some (sessionIdOf req.headerSessionId req.urlSessionId) := by
  obtain ⟨docs, fm, wm, hb, rfl⟩ := indexingPOST_upsert_shape env req oracle ds hmem
  obtain ⟨d0, hd0, hmeta⟩ := splitDocuments_metadata _ _ _ hd
  rw [hmeta]
  exact buildDocs_tenant req oracle _ docs fm wm hb d0 hd0

theorem chatSessionResults_tenant (p : ScoredPoint) (S : String) (res : List ScoredPoint)
    (h : p ∈ chatSessionResults res S) : effectiveTenantId p = some S := by
  unfold chatSessionResults at h
  have h2 := List.mem_of_mem_take h
  rw [List.mem_filter] at h2
  exact eq_of_beq h2.2

/-- C1: tenant isolation of retrieval.  (i) A chunk upserted by an ingestion
request is never in the chat route's filtered retrieval output of a different
session.  (ii) Every point the filter keeps carries the requesting session's
id as its effective tenant id.  (iii) A stored chunk whose metadata tenant id
equals a (nonempty) session id is discoverable by that session.  (iv) Session
ids produced by the route's header fallback are never empty. -/
theorem c1_tenant_isolation :
    (∀ env req oracle ds d pid res S2,
        Effect.embedUpsert ds ∈ (indexingPOST env req oracle).2 → d ∈ ds →
        sessionIdOf req.headerSessionId req.urlSessionId ≠ S2 →
        pointOfDoc pid d ∉ chatSessionResults res S2)
    ∧ (∀ p S res, p ∈ chatSessionResults res S → effectiveTenantId p = some S)
    ∧ (∀ d pid S, d.metadata.tenant_id = some S → S ≠ "" →
        pointOfDoc pid d ∈ chatSessionResults (chatCandidates [pointOfDoc pid d]) S)
    ∧ (∀ h u, sessionIdOf h u ≠ "") := by
  refine ⟨?_, chatSessionResults_tenant, ?_, sessionIdOf_ne_empty⟩
  · intro env req oracle ds d pid res S2 hmem hd hne habs
    have ht := indexingPOST_upsert_tenant env req oracle ds d hmem hd
    have he := chatSessionResults_tenant _ _ _ habs
    have hshape : effectiveTenantId (pointOfDoc pid d) = jsOrS d.metadata.tenant_id none := rfl
    rw [hshape, ht] at he
    by_cases hs : sessionIdOf req.headerSessionId req.urlSessionId = ""
    · simp [jsOrS, hs] at he
    · simp [jsOrS, hs] at he
      exact hne he
  · intro d pid S hmeta hS
    have he : effectiveTenantId (pointOfDoc pid d) = some S := by
      show jsOrS d.metadata.tenant_id none = some S
      rw [hmeta]
      simp [jsOrS, hS]
    simp [chatSessionResults, chatCandidates, chatSearchLimit, chatResultK, he]

/-- The C1 witness scenario: a text file ingested under session `s1`. -/
def c1File : FileUpload := { name := "notes.txt", bytes := 10, textContent := "alpha" }

def c1Req : IndexingRequest := { headerSessionId := some "s1", file := some c1File }

/-- The single chunk the witness ingestion upserts. -/
def c1Chunk : Document :=
  { pageContent := "alpha",
    metadata := { source := some "notes.txt", type := some "text",
                  size := some (kbString 10), tenant_id := some "s1" } }

theorem c1_witness :
    pointOfDoc 1 c1Chunk ∉ chatSessionResults (chatCandidates [pointOfDoc 1 c1Chunk]) "s2"
    ∧ pointOfDoc 1 c1Chunk ∈ chatSessionResults (chatCandidates [pointOfDoc 1 c1Chunk]) "s1" := by
  constructor
  · exact c1_tenant_isolation.1 envI c1Req ({} : IndexingOracle) [c1Chunk] c1Chunk 1
      (chatCandidates [pointOfDoc 1 c1Chunk]) "s2" (by decide) (by decide) (by decide)
  · exact c1_tenant_isolation.2.2.1 c1Chunk 1 "s1" rfl (by decide)

/-! ## Claim C7 -/

/-- C7 (amended): a file upload whose declared extension is none of
pdf/md/txt/markdown makes the whole request fail with the
`Unsupported file type` message at HTTP status 500 (the route's generic
catch), before any embedding or store call and with no session bookkeeping
written. -/
theorem c7_unsupported_format (env : IndexingEnv) (req : IndexingRequest)
    (oracle : IndexingOracle) (f : FileUpload)
    (henv : indexingEnvReady env) (hf : req.file = some f)
    (h1 : extensionOf f.name ≠ "pdf") (h2 : extensionOf f.name ≠ "md")
    (h3 : extensionOf f.name ≠ "txt") (h4 : extensionOf f.name ≠ "markdown") :
    indexingPOST env req oracle
      = (.failure 500
           ("Unsupported file type: " ++ extensionOf f.name ++ ". Supported: PDF, MD, TXT."),
         []) := by
  obtain ⟨e1, e2, e3⟩ := henv
  have hbuild : buildDocs req oracle (sessionIdOf req.headerSessionId req.urlSessionId)
      = .error (500, "Unsupported file type: " ++ extensionOf f.name
          ++ ". Supported: PDF, MD, TXT.") := by
    unfold buildDocs fileStepOf handleFileUpload
    rw [hf]
    dsimp only
    rw [if_neg h1, if_neg (by simp [h2, h3, h4])]
  unfold indexingPOST
  rw [e1, e2, e3]
  simp only [Bool.or_self, Bool.false_or, if_false]
  rw [hf]
  simp only [Option.isNone_some, Bool.false_and, if_false]
  rw [hbuild]
  rfl

/-- An upload request carrying an unsupported `.docx` file. -/
def c7Req : IndexingRequest :=
  { headerSessionId := some "s1", file := some { name := "report.docx", bytes := 100 } }

/-- C7 counterexample: the `.docx` upload is answered with HTTP status 500,
not the claimed 400 (the thrown `UnsupportedFormat` error lands in the
route's generic catch); no embedding call or session write happens. -/
theorem c7_counterexample :
    (indexingPOST envI c7Req ({} : IndexingOracle)).1
        = .failure 500 "Unsupported file type: docx. Supported: PDF, MD, TXT."
    ∧ (indexingPOST envI c7Req ({} : IndexingOracle)).1.status = 500
    ∧ decide ((indexingPOST envI c7Req ({} : IndexingOracle)).1.status = 400) = false
    ∧ (indexingPOST envI c7Req ({} : IndexingOracle)).2 = [] := by
  refine ⟨by decide, by decide, by decide, by decide⟩

theorem c7_witness :
    indexingPOST envI c7Req ({} : IndexingOracle)
      = (.failure 500 "Unsupported file type: docx. Supported: PDF, MD, TXT.", []) := by
  have h := c7_unsupported_format envI c7Req ({} : IndexingOracle)
    { name := "report.docx", bytes := 100 } ⟨rfl, rfl, rfl⟩ rfl
    (by decide) (by decide) (by decide) (by decide)
  rw [h]
  decide

/-! ## Claim C8 -/

theorem upsertStep_fileAdded (sessionId : String) (req : IndexingRequest)
    (oracle : IndexingOracle) (docs : List Document) (fileMetrics : FileMetrics)
    (webMetrics : WebMetrics) (sid : String) (m : FileMetadata)
    (h : Effect.fileAdded sid m ∈ (upsertStep sessionId req oracle docs fileMetrics webMetrics).2) :
    oracle.upsert = .ok ()
    ∧ (upsertStep sessionId req oracle docs fileMetrics webMetrics).2
        = [.embedUpsert (splitDocuments oracle.split docs), .fileAdded sid m] := by
  by_cases hempty : docs.isEmpty = true
  · unfold upsertStep at h
    rw [if_pos hempty] at h
    exact absurd h (by simp)
  · rcases hup : oracle.upsert with e | v
    · unfold upsertStep at h
      rw [if_neg hempty] at h
      simp only [hup] at h
      simp at h
    · unfold upsertStep at h ⊢
      rw [if_neg hempty] at h ⊢
      simp only [hup] at h ⊢
      simp only [List.mem_cons, List.not_mem_nil, or_false] at h
      rcases h with h | h
      · exact absurd h (by simp)
      · rw [Effect.fileAdded.injEq] at h
        obtain ⟨rfl, rfl⟩ := h
        exact ⟨trivial, rfl⟩

theorem upsertStep_success (sessionId : String) (req : IndexingRequest)
    (oracle : IndexingOracle) (docs : List Document) (fileMetrics : FileMetrics)
    (webMetrics : WebMetrics)
    (h : (upsertStep sessionId req oracle docs fileMetrics webMetrics).1.isSuccess = true) :
    oracle.upsert = .ok () := by
  unfold upsertStep at h
  by_cases hempty : docs.isEmpty = true
  · rw [if_pos hempty] at h
    exact absurd h (by simp [IndexingResponse.isSuccess])
  · rw [if_neg hempty] at h
    rcases hup : oracle.upsert with e | v
    · simp only [hup] at h
      exact absurd h (by simp [IndexingResponse.isSuccess])
    · rfl

theorem indexingPOST_success_imp (env : IndexingEnv) (req : IndexingRequest)
    (oracle : IndexingOracle)
    (h : (indexingPOST env req oracle).1.isSuccess = true) : oracle.upsert = .ok () := by
  rcases indexingPOST_cases env req oracle with hc | ⟨docs, fm, wm, hb, heq⟩
  · revert h
    unfold indexingPOST
    dsimp only
    split
    · intro h
      exact absurd h (by simp [IndexingResponse.isSuccess])
    · split
      · intro h
        exact absurd h (by simp [IndexingResponse.isSuccess])
      · split
        · intro h
          exact absurd h (by simp [IndexingResponse.isSuccess])
        · intro h
          exact upsertStep_success _ _ _ _ _ _ h
  · rw [heq] at h
    exact upsertStep_success _ _ _ _ _ _ h

/-- C8: ingestion is all-or-nothing for session bookkeeping.  If the combined
embedding + index-store upsert fails, the response is a failure and no
source record is appended for any session; conversely, whenever a source
record was appended, the upsert succeeded and the append happened strictly
after the upsert call (the run's write sequence is exactly upsert then
append). -/
theorem c8_no_partial_source :
    (∀ env req oracle e, oracle.upsert = .error e →
       (indexingPOST env req oracle).1.isSuccess = false
       ∧ ∀ sid m, Effect.fileAdded sid m ∉ (indexingPOST env req oracle).2)
    ∧ (∀ env req oracle sid m,
       Effect.fileAdded sid m ∈ (indexingPOST env req oracle).2 →
       oracle.upsert = .ok ()
       ∧ ∃ ds, (indexingPOST env req oracle).2 = [.embedUpsert ds, .fileAdded sid m]) := by
  have key : ∀ env req oracle sid m,
      Effect.fileAdded sid m ∈ (indexingPOST env req oracle).2 →
      oracle.upsert = .ok ()
      ∧ ∃ ds, (indexingPOST env req oracle).2 = [.embedUpsert ds, .fileAdded sid m] := by
    intro env req oracle sid m hmem
    rcases indexingPOST_cases env req oracle with hc | ⟨docs, fm, wm, hb, heq⟩
    · rw [hc] at hmem
      exact absurd hmem (by simp)
    · rw [heq] at hmem ⊢
      obtain ⟨hok, hshape⟩ := upsertStep_fileAdded _ _ _ _ _ _ _ _ hmem
      exact ⟨hok, _, hshape⟩
  refine ⟨?_, key⟩
  intro env req oracle e he
  constructor
  · have hnot : ¬ ((indexingPOST env req oracle).1.isSuccess = true) := by
      intro hs
      rw [indexingPOST_success_imp env req oracle hs] at he
      exact Except.noConfusion he
    exact Bool.not_eq_true _ ▸ (Bool.eq_false_iff.mpr (fun hb => hnot hb))
  · intro sid m hmem
    obtain ⟨hok, -⟩ := key env req oracle sid m hmem
    rw [hok] at he
    exact Except.noConfusion he

/-- An oracle whose embedding/upsert call throws. -/
def c8Oracle : IndexingOracle := { upsert := .error "embedding failed" }

theorem c8_witness :
    (indexingPOST envI c1Req c8Oracle).1.isSuccess = false
    ∧ Effect.fileAdded "s1"
        { id := "0", name := "notes.txt", type := "text", size := "0.0 KB",
          sourceType := "file", uploadedAt := 0 }
        ∉ (indexingPOST envI c1Req c8Oracle).2 := by
  have h := c8_no_partial_source.1 envI c1Req c8Oracle "embedding failed" rfl
  exact ⟨h.1, h.2 _ _⟩

/-! ## Claim C9 -/

theorem ingestDeleteMatches_iff (fn : String) (p : ScoredPoint) :
    ingestDeleteMatches fn p = true
      ↔ (pointSourceOf p = some fn ∨ (fn = "User Text" ∧ pointSourceOf p = some "user_text")) := by
  unfold ingestDeleteMatches
  simp [Bool.or_eq_true, Bool.and_eq_true, beq_iff_eq]

/-- C9: source deletion is not tenant-scoped.  Within the scanned page, a
point's id is deleted exactly when its payload source equals the requested
file name (or the legacy `user_text` when deleting "User Text") — the tenant
id plays no role — and the set of deleted index ids is entirely independent
of the requesting session. -/
theorem c9_delete_not_tenant_scoped :
    (∀ coll fn p, (coll.map ScoredPoint.id).Nodup → p ∈ scrolledPoints coll →
       (p.id ∈ ingestDeleteIds coll fn
         ↔ pointSourceOf p = some fn ∨ (fn = "User Text" ∧ pointSourceOf p = some "user_text")))
    ∧ (∀ fn h1 u1 h2 u2 env coll,
        (ingestDELETE fn h1 u1 env coll).2.deletedPointIds
          = (ingestDELETE fn h2 u2 env coll).2.deletedPointIds) := by
  constructor
  · intro coll fn p hnd hp
    constructor
    · intro hid
      unfold ingestDeleteIds at hid
      rw [List.mem_map] at hid
      obtain ⟨q, hq, hqid⟩ := hid
      rw [List.mem_filter] at hq
      have hqc : q ∈ coll := List.mem_of_mem_take hq.1
      have hpc : p ∈ coll := List.mem_of_mem_take hp
      have hqp : q = p := List.inj_on_of_nodup_map hnd hqc hpc hqid
      rw [hqp] at hq
      exact (ingestDeleteMatches_iff fn p).mp hq.2
    · intro hmatch
      unfold ingestDeleteIds
      rw [List.mem_map]
      exact ⟨p, List.mem_filter.mpr ⟨hp, (ingestDeleteMatches_iff fn p).mpr hmatch⟩, rfl⟩
  · intro fn h1 u1 h2 u2 env coll
    unfold ingestDELETE
    by_cases hfn : jsFalsy fn = true
    · simp [hfn]
    · simp only [Bool.not_eq_true] at hfn
      by_cases he : (jsFalsy env.url || jsFalsy env.key) = true
      · simp [hfn, he]
      · simp only [Bool.not_eq_true] at he
        by_cases hempty : (ingestDeleteIds coll (jsOrD fn "")).isEmpty = true
        · simp [hfn, he, hempty]
        · simp only [Bool.not_eq_true] at hempty
          simp [hfn, he, hempty]

/-- Two sessions ingested chunks from the same source name "a.pdf". -/
def c9Coll : List ScoredPoint := [mkPoint 1 "s1" "a.pdf", mkPoint 2 "s2" "a.pdf"]

theorem c9_witness :
    (1 ∈ ingestDeleteIds c9Coll "a.pdf") ∧ (2 ∈ ingestDeleteIds c9Coll "a.pdf") := by
  constructor
  · exact (c9_delete_not_tenant_scoped.1 c9Coll "a.pdf" (mkPoint 1 "s1" "a.pdf")
      (by decide) (by decide)).mpr (Or.inl (by decide))
  · exact (c9_delete_not_tenant_scoped.1 c9Coll "a.pdf" (mkPoint 2 "s2" "a.pdf")
      (by decide) (by decide)).mpr (Or.inl (by decide))

/-! ## Claim C10 -/

theorem not_deleted_beyond_page (coll : List ScoredPoint) (pred : ScoredPoint → Bool)
    (p : ScoredPoint) (hnd : (coll.map ScoredPoint.id).Nodup)
    (hp : p ∈ coll.drop scrollLimit) :
    p.id ∉ ((scrolledPoints coll).filter pred).map ScoredPoint.id := by
  intro hid
  rw [List.mem_map] at hid
  obtain ⟨q, hq, hqid⟩ := hid
  rw [List.mem_filter] at hq
  have hqt : q ∈ coll.take scrollLimit := hq.1
  have hqc : q ∈ coll := List.mem_of_mem_take hqt
  have hpc : p ∈ coll := List.mem_of_mem_drop hp
  have hqp : q = p := List.inj_on_of_nodup_map hnd hqc hpc hqid
  rw [hqp] at hqt
  have hcnd : coll.Nodup := hnd.of_map
  rw [← List.take_append_drop scrollLimit coll, List.nodup_append] at hcnd
  exact hcnd.2.2 hqt hp

/-- C10: both DELETE handlers examine a single scroll page of at most 1000
points; with pairwise-distinct point ids, a point beyond the first 1000
entries of the collection is never deleted, by either handler, whatever the
file name or session id. -/
theorem c10_single_scroll_page :
    (∀ coll, (scrolledPoints coll).length ≤ scrollLimit)
    ∧ (∀ coll fn p, (coll.map ScoredPoint.id).Nodup → p ∈ coll.drop scrollLimit →
        p.id ∉ ingestDeleteIds coll fn)
    ∧ (∀ coll sid p, (coll.map ScoredPoint.id).Nodup → p ∈ coll.drop scrollLimit →
        p.id ∉ sessionDeleteIds coll sid) := by
  refine ⟨fun coll => List.length_take_le _ _, ?_, ?_⟩
  · intro coll fn p hnd hp
    exact not_deleted_beyond_page coll (ingestDeleteMatches fn) p hnd hp
  · intro coll sid p hnd hp
    exact not_deleted_beyond_page coll (fun q => effectiveTenantId q == some sid) p hnd hp

def c10Point (i : Nat) : ScoredPoint := mkPoint i "s1" "a.pdf"

/-- A collection of 1001 points, all from tenant `s1` and source "a.pdf". -/
def c10Coll : List ScoredPoint := (List.range 1001).map c10Point

theorem c10_witness :
    (c10Point 1000).id ∉ ingestDeleteIds c10Coll "a.pdf"
    ∧ ingestDeleteMatches "a.pdf" (c10Point 1000) = true
    ∧ 1000 < c10Coll.length := by
  have hids : c10Coll.map ScoredPoint.id = List.range 1001 := by
    unfold c10Coll
    rw [List.map_map]
    exact List.map_id'' (fun i => rfl) _
  have hnd : (c10Coll.map ScoredPoint.id).Nodup := by
    rw [hids]
    exact List.nodup_range 1001
  have hdrop : c10Point 1000 ∈ c10Coll.drop scrollLimit := by
    unfold c10Coll scrollLimit
    rw [← List.map_drop]
    have : (List.range 1001).drop 1000 = [1000] := by
      rw [List.range_succ]
      exact List.drop_left' (List.length_range 1000)
    rw [this]
    exact List.mem_singleton.mpr rfl
  refine ⟨c10_single_scroll_page.2.1 c10Coll "a.pdf" (c10Point 1000) hnd hdrop,
    by decide, ?_⟩
  unfold c10Coll
  rw [List.length_map, List.length_range]
  decide

end RagAi
